import Mathlib

/-
Verification of the decltype demonstration program
(src/09-specializations-metaprogramming/5-decltype/decltype.cpp).

The embedding models:
  * the C++ types that occur in the program (int, double, the vector<int>
    iterator, and lvalue/rvalue reference types),
  * the decltype deduction rules over expression shapes (unparenthesized
    identifier, parenthesized expression, function call, literal) and
    value categories (lvalue, xvalue, prvalue),
  * the run-time store: machine memory is a map from addresses to integer
    values; a binding is either an independent copy of a value or a
    reference (an alias to an address),
  * each demonstration routine as a store transformer producing its
    printed lines, and main as the Option-monadic sequencing of the eight
    routines in source order, returning the labeled sections, the final
    store, and the exit status.
-/

namespace DecltypeCpp

/-- Machine addresses. -/
abbrev Addr := Nat

/-- The run-time store: memory as a map from addresses to integer values. -/
abbrev Store := Addr → Int

/-- Write value `v` at address `a`. -/
def Store.write (σ : Store) (a : Addr) (v : Int) : Store :=
  fun a2 => if a2 = a then v else σ a2

/-- The C++ types occurring in the program. -/
inductive CppType where
  | int
  | double
  | vecIntIterator
  | lref (t : CppType)
  | rref (t : CppType)
  deriving DecidableEq, Repr

/-- Whether a type is a reference type (lvalue or rvalue reference). -/
def CppType.isRef : CppType → Bool
  | .lref _ => true
  | .rref _ => true
  | _ => false

/-- Remove a top-level reference qualifier. -/
def stripRef : CppType → CppType
  | .lref t => t
  | .rref t => t
  | t => t

/-- C++ expression value categories. -/
inductive ValueCategory where
  | lvalue
  | xvalue
  | prvalue
  deriving DecidableEq, Repr

/-- The shapes of expressions the program applies decltype to:
an unparenthesized identifier naming a variable of a declared type, a
parenthesized expression, a call of a function with a given return type,
and a literal. -/
inductive DtExpr where
  | ident (declared : CppType)
  | paren (e : DtExpr)
  | call (ret : CppType)
  | lit (t : CppType)
  deriving DecidableEq, Repr

/-- The (non-reference) type of an expression. -/
def exprType : DtExpr → CppType
  | .ident t => stripRef t
  | .paren e => exprType e
  | .call t => stripRef t
  | .lit t => t

/-- The value category of an expression: an identifier is an lvalue, a
parenthesized expression keeps the category of its operand, a call is an
lvalue / xvalue / prvalue according to whether the return type is an
lvalue reference / rvalue reference / non-reference, a literal is a
prvalue. -/
def exprCat : DtExpr → ValueCategory
  | .ident _ => .lvalue
  | .paren e => exprCat e
  | .call t =>
    match t with
    | .lref _ => .lvalue
    | .rref _ => .xvalue
    | _ => .prvalue
  | .lit _ => .prvalue

/-- The decltype deduction rule: for an unparenthesized identifier the
declared type of the entity; otherwise T&, T&& or T according to whether
the expression is an lvalue, an xvalue or a prvalue of type T. -/
def decltypeOf (e : DtExpr) : CppType :=
  match e with
  | .ident t => t
  | e2 =>
    match exprCat e2 with
    | .lvalue => .lref (exprType e2)
    | .xvalue => .rref (exprType e2)
    | .prvalue => exprType e2

/-- Plain `auto` return-type / binding deduction: template argument
deduction by value, which drops reference qualifiers. -/
def autoDeduce (e : DtExpr) : CppType := exprType e

/-- A run-time binding: either an independent copy of an integer value, or
a reference aliasing the storage at an address. -/
inductive Binding where
  | value (v : Int)
  | ref (a : Addr)
  deriving DecidableEq, Repr

/-- Read the integer a binding designates in store `σ`. -/
def Binding.read (b : Binding) (σ : Store) : Int :=
  match b with
  | .value v => v
  | .ref a => σ a

/-- Assign `v` through a binding: through a copy the store is untouched
and only the copy changes; through a reference the aliased storage is
written. Returns the updated binding and store. -/
def Binding.write (b : Binding) (v : Int) (σ : Store) : Binding × Store :=
  match b with
  | .value _ => (.value v, σ)
  | .ref a => (.ref a, σ.write a v)

/-- Initialize a binding of declared type `t` from the variable stored at
address `a`: a reference type aliases the storage, a non-reference type
copies the current value. -/
def initBindingFromVar (t : CppType) (a : Addr) (σ : Store) : Binding :=
  if t.isRef then .ref a else .value (σ a)

/-- Initialize a binding of declared type `t` from an existing handle: a
reference type keeps aliasing whatever the handle designates, a
non-reference type copies the value read through the handle. -/
def initBindingFromHandle (t : CppType) (h : Binding) (σ : Store) : Binding :=
  if t.isRef then h else .value (h.read σ)

/-- Implementation-defined textual rendering of a type, as produced by
typeid(...).name() on a common toolchain; typeid strips reference
qualifiers, so both reference flavours render as the referred type. -/
def typeidName : CppType → String
  | .lref t => typeidName t
  | .rref t => typeidName t
  | .int => "i"
  | .double => "d"
  | .vecIntIterator => "N9__gnu_cxx17__normal_iteratorIPiSt6vectorIiSaIiEEEE"

/-- The print_type helper: one output line naming the variable and the
rendering of its type. -/
def print_type (t : CppType) (var_name : String) : String :=
  var_name ++ " : " ++ typeidName t

/-- Address of the file-scope global_var (initialized to 10). -/
def global_var_addr : Addr := 0

/-- Address of the function-local static val of get_rvalue (initialized
to 42). -/
def rule3_val_addr : Addr := 1

/-- Address used for the routine-local variable x of rule1, rule2 and
parentheses_effect (each routine's own stack slot; the frames do not
overlap in time). -/
def local_x_addr : Addr := 2

/-- The store at program start: global_var holds 10, the static val of
get_rvalue holds 42. -/
def initStore : Store :=
  fun a => if a = global_var_addr then 10 else if a = rule3_val_addr then 42 else 0

/-- Type of a in rule1: decltype(x) for the unparenthesized identifier x
declared int. -/
def rule1_a_type : CppType := decltypeOf (.ident .int)

/-- The binding a of rule1, initialized from the literal 1. -/
def rule1_a : Binding := .value 1

/-- rule1: int x = 0; decltype(x) a = 1; print_type(a, "a"). -/
def rule1_run (σ : Store) : Option (List String × Store) :=
  let σ1 := σ.write local_x_addr 0
  some ([print_type rule1_a_type "a"], σ1)

/-- Type of b in rule2: decltype((x)) for the parenthesized identifier x
declared int. -/
def rule2_b_type : CppType := decltypeOf (.paren (.ident .int))

/-- The binding b of rule2, initialized from the variable x. -/
def rule2_b (σ : Store) : Binding := initBindingFromVar rule2_b_type local_x_addr σ

/-- rule2: int x = 0; decltype((x)) b = x; print_type(b, "b"). -/
def rule2_run (σ : Store) : Option (List String × Store) :=
  let σ1 := σ.write local_x_addr 0
  some ([print_type rule2_b_type "b"], σ1)

/-- get_rvalue: returns std::move(val), an rvalue-reference handle to the
function-local static val; std::move is a cast, so the handle aliases the
static storage. -/
def get_rvalue (_ : Store) : Binding := .ref rule3_val_addr

/-- The declared return type of get_rvalue. -/
def get_rvalue_retType : CppType := .rref .int

/-- Type of c in rule3: decltype(get_rvalue()) for a call of a function
returning int&&. -/
def rule3_c_type : CppType := decltypeOf (.call get_rvalue_retType)

/-- The binding c of rule3, initialized from the handle returned by
get_rvalue(). -/
def rule3_c (σ : Store) : Binding := initBindingFromHandle rule3_c_type (get_rvalue σ) σ

/-- rule3: decltype(get_rvalue()) c = get_rvalue(); print_type(c, "c"). -/
def rule3_run (σ : Store) : Option (List String × Store) :=
  some ([print_type rule3_c_type "c"], σ)

/-- Type of d in rule4: decltype(42), the literal 42 being a prvalue of
type int. -/
def rule4_d_type : CppType := decltypeOf (.lit .int)

/-- The binding d of rule4, initialized from the literal 42. -/
def rule4_d : Binding := .value 42

/-- rule4: decltype(42) d = 42; print_type(d, "d"). -/
def rule4_run (σ : Store) : Option (List String × Store) :=
  some ([print_type rule4_d_type "d"], σ)

/-- The usual arithmetic conversion of the two operand types of +: if
either operand is double the result is double, otherwise int. -/
def arithCommonType : CppType → CppType → CppType
  | .double, _ => .double
  | _, .double => .double
  | _, _ => .int

/-- Deduced return type of add: decltype(t + u), where t + u is a prvalue
of the common arithmetic type of the operands. -/
def addRetType (t u : CppType) : CppType := decltypeOf (.lit (arithCommonType t u))

/-- The value computed by add: t + u. The operands 3 and 4.5 and their sum
7.5 are exactly representable, so exact rational arithmetic is faithful. -/
def add (t u : ℚ) : ℚ := t + u

/-- The value bound to sum in function_return_type: add(3, 4.5). -/
def function_return_type_sum : ℚ := add 3 4.5

/-- function_return_type: auto sum = add(3, 4.5); print_type(sum, "sum"). -/
def function_return_type_run (σ : Store) : Option (List String × Store) :=
  some ([print_type (addRetType .int .double) "sum"], σ)

/-- An iterator into a vector of int: the sequence and a position. -/
structure VecIntIter where
  vec : List Int
  idx : Nat
  deriving DecidableEq, Repr

/-- vec.begin(): iterator at position 0. -/
def vecBegin (v : List Int) : VecIntIter := ⟨v, 0⟩

/-- The vector constructed in complex_types. -/
def complex_types_vec : List Int := [1, 2, 3]

/-- Type of it in complex_types: decltype(vec.begin()), a call returning
the iterator type by value. -/
def complex_types_it_type : CppType := decltypeOf (.call .vecIntIterator)

/-- The iterator bound to it in complex_types. -/
def complex_types_it : VecIntIter := vecBegin complex_types_vec

/-- complex_types: vector<int> vec = {1,2,3}; decltype(vec.begin()) it =
vec.begin(); print_type(it, "it"). -/
def complex_types_run (σ : Store) : Option (List String × Store) :=
  some ([print_type complex_types_it_type "it"], σ)

/-- The declared return type of get_ref: int&. -/
def get_ref_retType : CppType := .lref .int

/-- get_ref: returns global_var by lvalue reference. -/
def get_ref (_ : Store) : Binding := .ref global_var_addr

/-- The deduced return type of get_auto: auto applied to the call
get_ref(), which drops the reference, giving int. -/
def get_auto_retType : CppType := autoDeduce (.call get_ref_retType)

/-- The deduced return type of get_decltype_auto: decltype(auto) applied
to the call get_ref(), giving int&. -/
def get_decltype_auto_retType : CppType := decltypeOf (.call get_ref_retType)

/-- get_auto: return get_ref(); with an auto (by-value) return type, the
result is an independent copy of global_var's current value. -/
def get_auto (σ : Store) : Binding :=
  initBindingFromHandle get_auto_retType (get_ref σ) σ

/-- get_decltype_auto: return get_ref(); with a decltype(auto) return
type, the result keeps aliasing global_var. -/
def get_decltype_auto (σ : Store) : Binding :=
  initBindingFromHandle get_decltype_auto_retType (get_ref σ) σ

/-- Type of val in decltype_auto_demo: auto applied to the call
get_auto(), a prvalue of type int. -/
def decltype_auto_demo_val_type : CppType := autoDeduce (.call get_auto_retType)

/-- Type of ref in decltype_auto_demo: decltype(auto) applied to the call
get_decltype_auto(), which returns int&. -/
def decltype_auto_demo_ref_type : CppType := decltypeOf (.call get_decltype_auto_retType)

/-- The binding val of decltype_auto_demo. -/
def decltype_auto_demo_val (σ : Store) : Binding :=
  initBindingFromHandle decltype_auto_demo_val_type (get_auto σ) σ

/-- The binding ref of decltype_auto_demo. -/
def decltype_auto_demo_ref (σ : Store) : Binding :=
  initBindingFromHandle decltype_auto_demo_ref_type (get_decltype_auto σ) σ

/-- decltype_auto_demo: auto val = get_auto(); decltype(auto) ref =
get_decltype_auto(); print both types. -/
def decltype_auto_demo_run (σ : Store) : Option (List String × Store) :=
  some ([print_type decltype_auto_demo_val_type "val",
         print_type decltype_auto_demo_ref_type "ref"], σ)

/-- Type of a in parentheses_effect: decltype(x). -/
def parentheses_effect_a_type : CppType := decltypeOf (.ident .int)

/-- Type of b in parentheses_effect: decltype((x)). -/
def parentheses_effect_b_type : CppType := decltypeOf (.paren (.ident .int))

/-- The binding a of parentheses_effect, initialized from the literal 1. -/
def parentheses_effect_a : Binding := .value 1

/-- The binding b of parentheses_effect, initialized from the variable x. -/
def parentheses_effect_b (σ : Store) : Binding :=
  initBindingFromVar parentheses_effect_b_type local_x_addr σ

/-- parentheses_effect: int x = 0; decltype(x) a = 1; decltype((x)) b =
x; print both types. -/
def parentheses_effect_run (σ : Store) : Option (List String × Store) :=
  let σ1 := σ.write local_x_addr 0
  some ([print_type parentheses_effect_a_type "a",
         print_type parentheses_effect_b_type "b"], σ1)

/-- The eight demonstration routines, in the order main calls them. -/
def routineRuns : List (Store → Option (List String × Store)) :=
  [rule1_run, rule2_run, rule3_run, rule4_run, function_return_type_run,
   complex_types_run, decltype_auto_demo_run, parentheses_effect_run]

/-- The store after the first n routines of the run (from the initial
store). -/
def storeAfter (n : Nat) : Option Store :=
  (routineRuns.take n).foldl
    (fun acc f => acc.bind (fun σ => (f σ).map Prod.snd)) (some initStore)

/-- The banner printed before each routine, in order. -/
def sectionLabels : List String :=
  ["Rule 1:", "Rule 2:", "Rule 3:", "Rule 4:", "Function Return Type:",
   "Complex Types:", "decltype(auto) Demo:", "Parentheses Effect:"]

/-- main: print each banner, run the corresponding routine, return 0.
The result is the list of labeled sections, the final store, and the exit
status. main takes no input (modeled by the Unit argument). -/
def cppMain (_ : Unit) : Option (List (String × List String) × Store × Int) := do
  let (o1, σ1) ← rule1_run initStore
  let (o2, σ2) ← rule2_run σ1
  let (o3, σ3) ← rule3_run σ2
  let (o4, σ4) ← rule4_run σ3
  let (o5, σ5) ← function_return_type_run σ4
  let (o6, σ6) ← complex_types_run σ5
  let (o7, σ7) ← decltype_auto_demo_run σ6
  let (o8, σ8) ← parentheses_effect_run σ7
  pure ([("Rule 1:", o1), ("Rule 2:", o2), ("Rule 3:", o3), ("Rule 4:", o4),
         ("Function Return Type:", o5), ("Complex Types:", o6),
         ("decltype(auto) Demo:", o7), ("Parentheses Effect:", o8)], σ8, 0)

/-- C1: in rule2 and parentheses_effect, the binding declared decltype((x))
b is an alias of x, not a copy: b is a reference to x's storage; starting
from x initialized to 0, assigning 1 through b makes reading x yield 1;
and in general every mutation through either name is visible through the
other. -/
theorem c1_paren_binding_aliases_x :
    (∀ σ : Store, rule2_b σ = Binding.ref local_x_addr) ∧
    (∀ σ : Store, parentheses_effect_b σ = Binding.ref local_x_addr) ∧
    (∀ σ : Store,
      ((rule2_b (σ.write local_x_addr 0)).write 1 (σ.write local_x_addr 0)).2
        local_x_addr = 1) ∧
    (∀ (σ : Store) (v : Int),
      ((rule2_b σ).write v σ).2 local_x_addr = v ∧
      (rule2_b σ).read ((rule2_b σ).write v σ).2 = v ∧
      (rule2_b σ).read (σ.write local_x_addr v) = v ∧
      ((parentheses_effect_b σ).write v σ).2 local_x_addr = v ∧
      (parentheses_effect_b σ).read (σ.write local_x_addr v) = v) :=
  ⟨fun _ => rfl, fun _ => rfl, fun _ => rfl,
   fun _ _ => ⟨rfl, rfl, rfl, rfl, rfl⟩⟩

/-- C2: get_auto returns an independent copy of global_var (deduced type
int), so mutating global_var afterwards leaves that result unchanged,
while get_decltype_auto returns an alias (deduced type int&), so any
subsequent mutation of global_var is reflected when reading through it. -/
theorem c2_auto_copies_decltype_auto_aliases :
    get_auto_retType = CppType.int ∧
    get_decltype_auto_retType = CppType.lref CppType.int ∧
    (∀ (σ : Store) (v : Int),
      (get_auto σ).read (σ.write global_var_addr v) = σ global_var_addr ∧
      (get_decltype_auto σ).read (σ.write global_var_addr v) = v) :=
  ⟨rfl, rfl, fun _ _ => ⟨rfl, rfl⟩⟩

/-- C3: add(3, 4.5) has deduced result type double (the floating-point
operand's type), and the value bound to sum in function_return_type is
exactly 7.5. -/
theorem c3_add_deduces_double_and_sums :
    addRetType CppType.int CppType.double = CppType.double ∧
    add 3 4.5 = (7.5 : ℚ) ∧
    function_return_type_sum = (7.5 : ℚ) := by
  refine ⟨rfl, ?_, ?_⟩ <;> norm_num [add, function_return_type_sum]

/-- C4: in rule1 and in the first binding of parentheses_effect, the
binding declared decltype(x) a has exactly type int with no reference
qualification: it is an independent copy, and assigning through it
changes neither the store nor x. -/
theorem c4_bare_identifier_is_copy :
    rule1_a_type = CppType.int ∧
    parentheses_effect_a_type = CppType.int ∧
    rule1_a_type.isRef = false ∧
    rule1_a = Binding.value 1 ∧
    parentheses_effect_a = Binding.value 1 ∧
    (∀ (σ : Store) (v : Int),
      (rule1_a.write v σ).2 = σ ∧
      (parentheses_effect_a.write v σ).2 = σ ∧
      (rule1_a.write v σ).2 local_x_addr = σ local_x_addr) :=
  ⟨rfl, rfl, rfl, rfl, rfl, fun _ _ => ⟨rfl, rfl, rfl⟩⟩

/-- C5: in rule4, decltype(42) deduces the plain value type int with no
reference qualification, and after initialization the binding d holds the
value 42. -/
theorem c5_prvalue_literal_plain_int :
    rule4_d_type = CppType.int ∧
    rule4_d_type.isRef = false ∧
    (∀ σ : Store, rule4_d.read σ = 42) :=
  ⟨rfl, rfl, fun _ => rfl⟩

/-- C6: in rule3, the binding c has the rvalue-reference type int&&,
which is distinct from the lvalue-reference type int& produced by the
parenthesized-variable demonstration of rule2. -/
theorem c6_xvalue_gives_rvalue_reference :
    rule3_c_type = CppType.rref CppType.int ∧
    rule2_b_type = CppType.lref CppType.int ∧
    rule3_c_type ≠ rule2_b_type := by
  refine ⟨rfl, rfl, ?_⟩
  decide

/-- C7: running main with no input produces exactly eight labeled
sections, in the fixed order of the spec, returns exit status 0, and is
fully deterministic: any two runs produce identical results. -/
theorem c7_main_eight_sections_in_order :
    ((cppMain ()).map fun p => p.1.map Prod.fst) = some sectionLabels ∧
    ((cppMain ()).map fun p => p.1.length) = some 8 ∧
    sectionLabels.length = 8 ∧
    ((cppMain ()).map fun p => p.2.2) = some 0 ∧
    (∀ u v : Unit, cppMain u = cppMain v) :=
  ⟨rfl, rfl, rfl, rfl, fun _ _ => rfl⟩

/-- C8: no operation of the program can fail at run time: main evaluates
to a result, every demonstration routine succeeds on every store, and
vec.begin() in complex_types is taken on the freshly constructed
non-empty vector {1,2,3}. -/
theorem c8_no_runtime_failure :
    (cppMain ()).isSome = true ∧
    complex_types_vec = [1, 2, 3] ∧
    complex_types_vec ≠ [] ∧
    complex_types_it = vecBegin complex_types_vec ∧
    (((List.range 9).all fun n => (storeAfter n).isSome) = true) ∧
    (∀ σ : Store,
      (rule1_run σ).isSome = true ∧ (rule2_run σ).isSome = true ∧
      (rule3_run σ).isSome = true ∧ (rule4_run σ).isSome = true ∧
      (function_return_type_run σ).isSome = true ∧
      (complex_types_run σ).isSome = true ∧
      (decltype_auto_demo_run σ).isSome = true ∧
      (parentheses_effect_run σ).isSome = true) := by
  refine ⟨rfl, rfl, ?_, rfl, rfl, fun σ => ⟨rfl, rfl, rfl, rfl, rfl, rfl, rfl, rfl⟩⟩
  decide

/-- C9: global_var is never written: it reads 10 before and after every
demonstration of the run; each routine leaves it unchanged from any
store; and at the point decltype_auto_demo runs, get_ref, get_auto and
get_decltype_auto all yield 10, so val and ref hold equal values. -/
theorem c9_global_var_never_written :
    (((List.range 9).all fun n =>
        ((storeAfter n).map fun σ => σ global_var_addr) == some 10) = true) ∧
    ((storeAfter 6).map fun σ =>
        ((get_ref σ).read σ, (get_auto σ).read σ, (get_decltype_auto σ).read σ)) =
      some (10, 10, 10) ∧
    ((storeAfter 6).map fun σ =>
        ((decltype_auto_demo_val σ).read σ, (decltype_auto_demo_ref σ).read σ)) =
      some (10, 10) ∧
    (∀ σ : Store,
      ((rule1_run σ).map fun p => p.2 global_var_addr) = some (σ global_var_addr) ∧
      ((rule2_run σ).map fun p => p.2 global_var_addr) = some (σ global_var_addr) ∧
      ((rule3_run σ).map fun p => p.2 global_var_addr) = some (σ global_var_addr) ∧
      ((rule4_run σ).map fun p => p.2 global_var_addr) = some (σ global_var_addr) ∧
      ((function_return_type_run σ).map fun p => p.2 global_var_addr) =
        some (σ global_var_addr) ∧
      ((complex_types_run σ).map fun p => p.2 global_var_addr) =
        some (σ global_var_addr) ∧
      ((decltype_auto_demo_run σ).map fun p => p.2 global_var_addr) =
        some (σ global_var_addr) ∧
      ((parentheses_effect_run σ).map fun p => p.2 global_var_addr) =
        some (σ global_var_addr)) :=
  ⟨rfl, rfl, rfl, fun _ => ⟨rfl, rfl, rfl, rfl, rfl, rfl, rfl, rfl⟩⟩

/-- C10: get_rvalue returns, on every call, the same rvalue-reference
handle to the single static val (initialized to 42); that storage reads
42 before and after every demonstration of the run; and reading through
the binding c of rule3 yields 42, in particular at the store the run
reaches when rule3 executes. -/
theorem c10_get_rvalue_persistent_42 :
    (∀ σ : Store, get_rvalue σ = Binding.ref rule3_val_addr) ∧
    get_rvalue_retType = CppType.rref CppType.int ∧
    (((List.range 9).all fun n =>
        ((storeAfter n).map fun σ => σ rule3_val_addr) == some 42) = true) ∧
    (∀ σ : Store, (rule3_c σ).read σ = σ rule3_val_addr) ∧
    ((storeAfter 2).map fun σ => (rule3_c σ).read σ) = some 42 :=
  ⟨fun _ => rfl, rfl, rfl, fun _ => rfl, rfl⟩

end DecltypeCpp
